import Mathlib

/-!
Verification of the `qiskit_algorithms` package manifest
(`src/qiskit_algorithms/__init__.py`) and of the variational-core design
described in the package specification.  The manifest is embedded as data
(line segments, imported names, the export list and the documented surface
of the module docstring); the components of the variational core that are
described by the specification but absent from the source tree are modelled
from the specification's own words.
-/

namespace QiskitAlgorithms

/-! ### Embedding of the export manifest

`src/qiskit_algorithms/__init__.py` is a 384-line file consisting of a
license header comment, a module docstring, module-level `from … import …`
statements, and an `__all__` assignment.  We embed its structure as a list
of classified line segments, the names bound by each import statement, the
`__all__` list, and the names mentioned on the docstring's documented
surface.
-/

/-- The syntactic categories a top-level segment of a Python module can fall
into.  `funcDef`, `classDef` and `otherLogic` are included so that the claim
"the file contains no function, class, or algorithmic logic" is a genuine
check on the data, not vacuous by construction. -/
inductive PyStmtKind where
  | comment
  | blank
  | docstring
  | importFrom
  | allAssign
  | funcDef
  | classDef
  | otherLogic
  deriving DecidableEq, Repr

/-- A contiguous run of lines of the module, classified. -/
structure PySegment where
  kind : PyStmtKind
  startLine : Nat
  endLine : Nat
  deriving DecidableEq, Repr

/-- The segments of `src/qiskit_algorithms/__init__.py`, in file order:
license header (1-11), blank (12), module docstring (13-299), the import
statements (300-342, with blank separator lines 317, 328 and 343), and the
`__all__` assignment (344-384). -/
def manifestSegments : List PySegment :=
  [ ⟨.comment, 1, 11⟩
  , ⟨.blank, 12, 12⟩
  , ⟨.docstring, 13, 299⟩
  , ⟨.importFrom, 300, 300⟩
  , ⟨.importFrom, 301, 301⟩
  , ⟨.importFrom, 302, 302⟩
  , ⟨.importFrom, 303, 303⟩
  , ⟨.importFrom, 304, 316⟩
  , ⟨.blank, 317, 317⟩
  , ⟨.importFrom, 318, 325⟩
  , ⟨.importFrom, 326, 326⟩
  , ⟨.importFrom, 327, 327⟩
  , ⟨.blank, 328, 328⟩
  , ⟨.importFrom, 329, 342⟩
  , ⟨.blank, 343, 343⟩
  , ⟨.allAssign, 344, 384⟩ ]

/-- `tilesFrom segs n last` holds when the segments cover the lines
`n, n+1, …, last` exactly, contiguously and in order. -/
def tilesFrom : List PySegment → Nat → Nat → Bool
  | [], n, last => n == last + 1
  | s :: rest, n, last =>
      (s.startLine == n) && Nat.ble s.startLine s.endLine &&
        tilesFrom rest (s.endLine + 1) last

/-- The segment kinds an export manifest may contain: comments, blank
lines, the module docstring, import statements and the `__all__` list. -/
def isManifestKind : PyStmtKind → Bool
  | .comment => true
  | .blank => true
  | .docstring => true
  | .importFrom => true
  | .allAssign => true
  | .funcDef => false
  | .classDef => false
  | .otherLogic => false

/-- The module-level `from … import …` statements of the manifest: each
entry is the source submodule together with the names it binds, in file
order (lines 300-342). -/
def manifestImports : List (String × List String) :=
  [ ("algorithm_job", ["AlgorithmJob"])
  , ("algorithm_result", ["AlgorithmResult"])
  , ("variational_algorithm", ["VariationalAlgorithm", "VariationalResult"])
  , ("amplitude_amplifiers",
      ["Grover", "GroverResult", "AmplificationProblem", "AmplitudeAmplifier"])
  , ("amplitude_estimators",
      [ "AmplitudeEstimator", "AmplitudeEstimatorResult"
      , "AmplitudeEstimation", "AmplitudeEstimationResult"
      , "FasterAmplitudeEstimation", "FasterAmplitudeEstimationResult"
      , "IterativeAmplitudeEstimation", "IterativeAmplitudeEstimationResult"
      , "MaximumLikelihoodAmplitudeEstimation"
      , "MaximumLikelihoodAmplitudeEstimationResult"
      , "EstimationProblem" ])
  , ("phase_estimators",
      [ "HamiltonianPhaseEstimation", "HamiltonianPhaseEstimationResult"
      , "PhaseEstimationScale", "PhaseEstimation", "PhaseEstimationResult"
      , "IterativePhaseEstimation" ])
  , ("exceptions", ["AlgorithmError"])
  , ("observables_evaluator", ["estimate_observables"])
  , ("time_evolvers",
      [ "ImaginaryTimeEvolver", "RealTimeEvolver"
      , "TimeEvolutionProblem", "TimeEvolutionResult"
      , "PVQD", "PVQDResult"
      , "SciPyImaginaryEvolver", "SciPyRealEvolver"
      , "VarQITE", "VarQRTE", "VarQTE", "VarQTEResult" ]) ]

/-- The names bound at module level by the import statements. -/
def importedNames : List String :=
  (manifestImports.map Prod.snd).flatten

/-- The `__all__` list of the manifest (lines 344-384), in file order. -/
def allList : List String :=
  [ "AlgorithmJob"
  , "AlgorithmResult"
  , "VariationalAlgorithm"
  , "VariationalResult"
  , "AmplitudeAmplifier"
  , "AmplificationProblem"
  , "Grover"
  , "GroverResult"
  , "AmplitudeEstimator"
  , "AmplitudeEstimatorResult"
  , "AmplitudeEstimation"
  , "AmplitudeEstimationResult"
  , "FasterAmplitudeEstimation"
  , "FasterAmplitudeEstimationResult"
  , "IterativeAmplitudeEstimation"
  , "IterativeAmplitudeEstimationResult"
  , "MaximumLikelihoodAmplitudeEstimation"
  , "MaximumLikelihoodAmplitudeEstimationResult"
  , "EstimationProblem"
  , "RealTimeEvolver"
  , "ImaginaryTimeEvolver"
  , "TimeEvolutionResult"
  , "TimeEvolutionProblem"
  , "HamiltonianPhaseEstimation"
  , "HamiltonianPhaseEstimationResult"
  , "PhaseEstimationScale"
  , "PhaseEstimation"
  , "PhaseEstimationResult"
  , "PVQD"
  , "PVQDResult"
  , "SciPyRealEvolver"
  , "SciPyImaginaryEvolver"
  , "IterativePhaseEstimation"
  , "AlgorithmError"
  , "estimate_observables"
  , "VarQITE"
  , "VarQRTE"
  , "VarQTE"
  , "VarQTEResult" ]

/-- The documented surface of the module docstring: every class, function
or submodule name listed in an autosummary block, together with the
`QuantumInstance` class referenced in the docstring prose (line 26).
Line numbers refer to `src/qiskit_algorithms/__init__.py`. -/
def docstringNames : List String :=
  [ -- prose reference, line 26
    "QuantumInstance"
    -- Amplitude Amplifiers, lines 49-52
  , "AmplificationProblem", "AmplitudeAmplifier", "Grover", "GroverResult"
    -- Amplitude Estimators, lines 62-72
  , "AmplitudeEstimator", "AmplitudeEstimatorResult"
  , "AmplitudeEstimation", "AmplitudeEstimationResult"
  , "EstimationProblem"
  , "FasterAmplitudeEstimation", "FasterAmplitudeEstimationResult"
  , "IterativeAmplitudeEstimation", "IterativeAmplitudeEstimationResult"
  , "MaximumLikelihoodAmplitudeEstimation"
  , "MaximumLikelihoodAmplitudeEstimationResult"
    -- Primitive-based Eigensolvers, line 92
  , "eigensolvers"
    -- Legacy Eigensolvers, lines 105-109
  , "Eigensolver", "EigensolverResult", "NumPyEigensolver", "VQD", "VQDResult"
    -- Primitive-based Time Evolvers, lines 130-139
  , "RealTimeEvolver", "ImaginaryTimeEvolver"
  , "TimeEvolutionResult", "TimeEvolutionProblem"
  , "PVQD", "PVQDResult"
  , "SciPyImaginaryEvolver", "SciPyRealEvolver"
  , "VarQITE", "VarQRTE"
    -- Legacy Time Evolvers, lines 151-155
  , "RealEvolver", "ImaginaryEvolver", "TrotterQRTE"
  , "EvolutionResult", "EvolutionProblem"
    -- Variational Quantum Time Evolution, line 167
  , "time_evolvers.variational"
    -- Trotterization-based Quantum Real Time Evolution, line 179
  , "time_evolvers.trotterization"
    -- Gradients, line 190
  , "gradients"
    -- Primitive-based Minimum Eigensolvers, line 209
  , "minimum_eigensolvers"
    -- Legacy Minimum Eigensolvers, lines 222-226
  , "MinimumEigensolver", "MinimumEigensolverResult"
  , "NumPyMinimumEigensolver", "QAOA", "VQE"
    -- Optimizers, line 237
  , "optimizers"
    -- Phase Estimators, lines 249-254
  , "HamiltonianPhaseEstimation", "HamiltonianPhaseEstimationResult"
  , "PhaseEstimationScale", "PhaseEstimation", "PhaseEstimationResult"
  , "IterativePhaseEstimation"
    -- State Fidelities, line 265
  , "state_fidelities"
    -- Exceptions, line 274
  , "AlgorithmError"
    -- Utility methods, lines 285-286
  , "eval_observables", "estimate_observables"
    -- Utility classes, line 297
  , "AlgorithmJob" ]

/-- The docstring's section headings, as (section title, subsection titles):
embedded from the reStructuredText heading structure of lines 35-298. -/
def docSectionHeadings : List (String × List String) :=
  [ ("Amplitude Amplifiers", [])
  , ("Amplitude Estimators", [])
  , ("Eigensolvers",
      ["Primitive-based Eigensolvers", "Legacy Eigensolvers"])
  , ("Time Evolvers",
      [ "Primitive-based Time Evolvers", "Legacy Time Evolvers"
      , "Variational Quantum Time Evolution"
      , "Trotterization-based Quantum Real Time Evolution" ])
  , ("Gradients", [])
  , ("Minimum Eigensolvers",
      ["Primitive-based Minimum Eigensolvers", "Legacy Minimum Eigensolvers"])
  , ("Optimizers", [])
  , ("Phase Estimators", [])
  , ("State Fidelities", [])
  , ("Exceptions", [])
  , ("Utility methods", [])
  , ("Utility classes", []) ]

/-- The subsection titles the docstring places under the section named
`title`, and `[]` when the docstring has no such section. -/
def subsectionsOf (title : String) : List String :=
  match docSectionHeadings.find? (fun p => p.1 == title) with
  | some p => p.2
  | none => []

/-! ### The variational core, modelled from the specification

The specification describes a hybrid variational optimization core
(Evaluation Job, Objective Evaluator, Gradient Supplier, Driver) whose
implementation lives in submodules that are not part of the source tree
examined here; only the manifest is.  The definitions below are therefore
modelled from the specification's own words, as faithfully as they state
them. -/

/-- Modelled from the spec: the Result Payload attached when a job
completes — "scalar or vector of floats, plus optional variance/shot-count
metadata" (spec section 3); floats are modelled as rationals. -/
structure Payload where
  values : List ℚ
  variance : Option ℚ
  shotCount : Option Nat
  deriving DecidableEq, Repr

/-- Modelled from the spec: the states of an Evaluation Job — "States:
PENDING → RUNNING → {DONE, FAILED, CANCELLED}" (spec section 3); the
DONE state carries the attached Result Payload. -/
inductive JobState where
  | PENDING
  | RUNNING
  | DONE (payload : Payload)
  | FAILED
  | CANCELLED
  deriving DecidableEq, Repr

/-- Whether a job state is terminal (DONE, FAILED or CANCELLED). -/
def JobState.isTerminal : JobState → Bool
  | .DONE _ => true
  | .FAILED => true
  | .CANCELLED => true
  | .PENDING => false
  | .RUNNING => false

/-- Whether a job state is the DONE state (the one carrying a Result
Payload). -/
def JobState.isDone : JobState → Bool
  | .DONE _ => true
  | .FAILED => false
  | .CANCELLED => false
  | .PENDING => false
  | .RUNNING => false

/-- Modelled from the spec: the transitions of the Evaluation Job state
machine — a job starts (PENDING to RUNNING) and then either completes with
a payload, fails, or is cancelled (spec section 3: "PENDING → RUNNING →
{DONE, FAILED, CANCELLED}"; "Transition RUNNING → DONE attaches a Result
Payload"). -/
inductive JobStep : JobState → JobState → Prop where
  | start : JobStep .PENDING .RUNNING
  | finish (p : Payload) : JobStep .RUNNING (.DONE p)
  | fail : JobStep .RUNNING .FAILED
  | cancel : JobStep .RUNNING .CANCELLED

/-- A linear congruential pseudo-random generator step (the concrete shot
noise source of the modelled stochastic backend). -/
def lcg (s : Nat) : Nat := (1103515245 * s + 12345) % 2147483648

/-- Mix a parameter vector into a random seed, so that shot outcomes depend
on both the evaluated point and the configured seed. -/
def mixSeed (θ : List ℚ) (seed : Nat) : Nat :=
  θ.foldl (fun a q => lcg (a + q.num.natAbs + q.den)) (lcg seed)

/-- The outcome of the k-th shot for a given mixed seed: a ±1 eigenvalue
sample drawn from the seeded pseudo-random stream. -/
def shotSample (mixed : Nat) (k : Nat) : ℚ :=
  if Nat.rec mixed (fun _ s => lcg s) (k + 1) % 2 == 0 then 1 else -1

/-- Modelled from the spec: the Objective Evaluator's `evaluate` for a
stochastic backend — for a parameter vector and a fixed random/shot seed it
submits `shots` shot evaluations, reduces them to a mean value, and exposes
the variance and shot count via the Payload (spec sections 4.2 and 8). -/
def evaluate (θ : List ℚ) (seed : Nat) (shots : Nat) : Payload :=
  let mixed := mixSeed θ seed
  let outcomes := (List.range shots).map (shotSample mixed)
  let mean := outcomes.foldl (· + ·) 0 / (shots : ℚ)
  let var := outcomes.foldl (fun a x => a + (x - mean) ^ 2) 0 / (shots : ℚ)
  ⟨[mean], some var, some shots⟩

/-- Modelled from the spec: the terminal statuses of an optimization run —
"converged / max-iterations / max-evaluations / failed" (spec section 3,
Result; section 4.4). -/
inductive RunStatus where
  | CONVERGED
  | MAX_ITER
  | MAX_EVALS
  | FAILED
  deriving DecidableEq, Repr

/-- Modelled from the spec: the Variational Algorithm Driver loop (spec
sections 4.4, 4.5 and 8).  `cost k` is the number of Evaluation Jobs the
optimizer's iteration `k` would submit and `conv k` whether the optimizer
declares convergence at iteration `k`.  The driver checks the evaluation
budget before allowing a submission: it runs `driverGo maxEvals cost conv
fuel k evals` with `fuel` remaining iterations, `k` the current iteration
index and `evals` the jobs submitted so far, returning the total jobs
submitted, the final iteration index and the terminal status. -/
def driverGo (maxEvals : Nat) (cost : Nat → Nat) (conv : Nat → Bool) :
    Nat → Nat → Nat → Nat × Nat × RunStatus
  | 0, k, evals => (evals, k, .MAX_ITER)
  | fuel + 1, k, evals =>
      if conv k then (evals, k, .CONVERGED)
      else if maxEvals < evals + cost k then (evals, k, .MAX_EVALS)
      else driverGo maxEvals cost conv fuel (k + 1) (evals + cost k)

/-- Modelled from the spec: a full Driver run with iteration budget
`maxIter` and evaluation budget `maxEvals`, starting from iteration 0 with
no jobs submitted. -/
def driverRun (maxIter maxEvals : Nat) (cost : Nat → Nat) (conv : Nat → Bool) :
    Nat × Nat × RunStatus :=
  driverGo maxEvals cost conv maxIter 0 0

/-- Modelled from the spec: the Gradient Supplier's parameter-shift
strategy — shift magnitude `s` with reduction
`(f(θ+s) - f(θ-s)) / (2 sin s)` (spec section 4.3). -/
noncomputable def paramShiftGrad (f : ℝ → ℝ) (s θ : ℝ) : ℝ :=
  (f (θ + s) - f (θ - s)) / (2 * Real.sin s)

/-- Modelled from the spec: the Gradient Supplier's finite-difference
strategy — configured step `ε` with reduction
`(f(θ+ε) - f(θ-ε)) / (2ε)` (spec section 4.3). -/
noncomputable def finiteDiffGrad (f : ℝ → ℝ) (ε θ : ℝ) : ℝ :=
  (f (θ + ε) - f (θ - ε)) / (2 * ε)

/-- Modelled from the spec: the default parameter-shift magnitude `π/2`
(spec section 4.3). -/
noncomputable def defaultShift : ℝ := Real.pi / 2

/-! ### Theorems settling the claims -/

/-- Claim C1: the sole source file `src/qiskit_algorithms/__init__.py` is
purely an export manifest of exactly 384 lines: its segments tile lines 1
through 384 exactly, and every segment is a comment, a blank line, the
module docstring, an import statement or the `__all__` assignment — none is
a function definition, class definition or other logic. -/
theorem manifest_is_pure_export_manifest :
    tilesFrom manifestSegments 1 384 = true ∧
    manifestSegments.all (fun s => isManifestKind s.kind) = true := by
  decide

/-- Claim C2, counterexample: `VQE` is not a name exported by the package
root — it is neither listed in `__all__` nor bound by a module-level
import, so not every one of VQE, QAOA, VarQITE, VarQRTE, PVQD, AlgorithmJob
is exported. -/
theorem vqe_not_exported :
    "VQE" ∉ allList ∧ "VQE" ∉ importedNames := by
  decide

/-- Claim C2, amended: of the six names, VarQITE, VarQRTE, PVQD and
AlgorithmJob are each imported at module level and listed in `__all__`,
while VQE and QAOA appear only on the docstring's documented surface and
are neither imported nor listed in `__all__`. -/
theorem declared_surface_exports :
    ("VarQITE" ∈ importedNames ∧ "VarQITE" ∈ allList) ∧
    ("VarQRTE" ∈ importedNames ∧ "VarQRTE" ∈ allList) ∧
    ("PVQD" ∈ importedNames ∧ "PVQD" ∈ allList) ∧
    ("AlgorithmJob" ∈ importedNames ∧ "AlgorithmJob" ∈ allList) ∧
    ("VQE" ∈ docstringNames ∧ "VQE" ∉ importedNames ∧ "VQE" ∉ allList) ∧
    ("QAOA" ∈ docstringNames ∧ "QAOA" ∉ importedNames ∧ "QAOA" ∉ allList) := by
  decide

/-- Claim C3, counterexample: `SubmissionError` is not an exception type
exposed by the package root — it is neither listed in `__all__` nor bound
by a module-level import. -/
theorem submission_error_not_exported :
    "SubmissionError" ∉ allList ∧ "SubmissionError" ∉ importedNames := by
  decide

/-- Claim C3, amended: the package root exposes exactly one exception name,
`AlgorithmError`; none of the six taxonomy names of the specification
(SubmissionError, ExecutionFailure, CancellationError, TimeoutError,
ConvergenceFailure, BudgetExceeded) is imported or listed in `__all__`. -/
theorem algorithm_error_sole_exception :
    ("AlgorithmError" ∈ importedNames ∧ "AlgorithmError" ∈ allList) ∧
    (["SubmissionError", "ExecutionFailure", "CancellationError",
      "TimeoutError", "ConvergenceFailure", "BudgetExceeded"].all
        (fun n => !(allList.contains n) && !(importedNames.contains n))
      = true) := by
  decide

/-- Claim C4: for each of the eigensolver, time-evolver and
minimum-eigensolver families, the docstring's documented surface has both a
primitive-based group and a legacy (QuantumInstance-based) group. -/
theorem legacy_and_primitive_groups :
    ("Primitive-based Eigensolvers" ∈ subsectionsOf "Eigensolvers" ∧
      "Legacy Eigensolvers" ∈ subsectionsOf "Eigensolvers") ∧
    ("Primitive-based Time Evolvers" ∈ subsectionsOf "Time Evolvers" ∧
      "Legacy Time Evolvers" ∈ subsectionsOf "Time Evolvers") ∧
    ("Primitive-based Minimum Eigensolvers" ∈
        subsectionsOf "Minimum Eigensolvers" ∧
      "Legacy Minimum Eigensolvers" ∈
        subsectionsOf "Minimum Eigensolvers") := by
  decide

/-- Budget invariant of the Driver loop: starting below the evaluation
budget with `fuel + k = maxIter`, the loop never exceeds the budget, and it
reports MAX_EVALS exactly when it stops at a non-converged iteration below
the iteration budget whose submissions would overrun the evaluation
budget. -/
theorem driverGo_budget (maxEvals : Nat) (cost : Nat → Nat)
    (conv : Nat → Bool) (maxIter : Nat) :
    ∀ fuel k evals, evals ≤ maxEvals → fuel + k = maxIter →
      (driverGo maxEvals cost conv fuel k evals).1 ≤ maxEvals ∧
      ((driverGo maxEvals cost conv fuel k evals).2.2 = RunStatus.MAX_EVALS ↔
        conv (driverGo maxEvals cost conv fuel k evals).2.1 = false ∧
        (driverGo maxEvals cost conv fuel k evals).2.1 < maxIter ∧
        maxEvals < (driverGo maxEvals cost conv fuel k evals).1 +
          cost (driverGo maxEvals cost conv fuel k evals).2.1) := by
  intro fuel
  induction fuel with
  | zero =>
      intro k evals hle hiter
      refine ⟨hle, ?_⟩
      show RunStatus.MAX_ITER = RunStatus.MAX_EVALS ↔
        conv k = false ∧ k < maxIter ∧ maxEvals < evals + cost k
      constructor
      · intro h
        exact RunStatus.noConfusion h
      · rintro ⟨-, hk, -⟩
        omega
  | succ fuel ih =>
      intro k evals hle hiter
      cases hc : conv k with
      | true =>
          have heq : driverGo maxEvals cost conv (fuel + 1) k evals
              = (evals, k, RunStatus.CONVERGED) := by
            simp [driverGo, hc]
          rw [heq]
          refine ⟨hle, ?_⟩
          show RunStatus.CONVERGED = RunStatus.MAX_EVALS ↔
            conv k = false ∧ k < maxIter ∧ maxEvals < evals + cost k
          constructor
          · intro h
            exact RunStatus.noConfusion h
          · rintro ⟨hcf, -, -⟩
            exact Bool.noConfusion (hc.symm.trans hcf)
      | false =>
          by_cases hb : maxEvals < evals + cost k
          · have heq : driverGo maxEvals cost conv (fuel + 1) k evals
                = (evals, k, RunStatus.MAX_EVALS) := by
              simp [driverGo, hc, hb]
            rw [heq]
            refine ⟨hle, ?_⟩
            show RunStatus.MAX_EVALS = RunStatus.MAX_EVALS ↔
              conv k = false ∧ k < maxIter ∧ maxEvals < evals + cost k
            constructor
            · intro
              exact ⟨hc, by omega, hb⟩
            · intro
              rfl
          · have heq : driverGo maxEvals cost conv (fuel + 1) k evals
                = driverGo maxEvals cost conv fuel (k + 1) (evals + cost k)
                := by
              simp [driverGo, hc, hb]
            rw [heq]
            exact ih (k + 1) (evals + cost k) (by omega) (by omega)

/-- Claim C5: a Driver run with evaluation budget `maxEvals` never submits
more than `maxEvals` Evaluation Jobs, and its status is MAX_EVALS exactly
when the optimizer would otherwise continue past that budget (it has not
converged, the iteration budget is not exhausted, and the next iteration's
submissions would exceed the budget). -/
theorem max_evaluations_budget (maxIter maxEvals : Nat) (cost : Nat → Nat)
    (conv : Nat → Bool) :
    (driverRun maxIter maxEvals cost conv).1 ≤ maxEvals ∧
    ((driverRun maxIter maxEvals cost conv).2.2 = RunStatus.MAX_EVALS ↔
      conv (driverRun maxIter maxEvals cost conv).2.1 = false ∧
      (driverRun maxIter maxEvals cost conv).2.1 < maxIter ∧
      maxEvals < (driverRun maxIter maxEvals cost conv).1 +
        cost (driverRun maxIter maxEvals cost conv).2.1) :=
  driverGo_budget maxEvals cost conv maxIter maxIter 0 0 (Nat.zero_le _)
    (by omega)

/-- Claim C6: every Evaluation Job transition starts from a non-terminal
state (DONE, FAILED and CANCELLED are immutable once reached), and any
transition into the payload-carrying DONE state originates from RUNNING, so
a Result Payload is attached exactly on the RUNNING to DONE transition. -/
theorem job_state_machine (s t : JobState) (h : JobStep s t) :
    s.isTerminal = false ∧ (t.isDone = true → s = JobState.RUNNING) := by
  cases h with
  | start => exact ⟨rfl, fun hp => by cases hp⟩
  | finish p => exact ⟨rfl, fun _ => rfl⟩
  | fail => exact ⟨rfl, fun hp => by cases hp⟩
  | cancel => exact ⟨rfl, fun hp => by cases hp⟩

/-- Witness for claim C6: the RUNNING to DONE transition at a concrete
payload. -/
theorem job_state_machine_witness :
    JobState.isTerminal JobState.RUNNING = false ∧
    (JobState.isDone (JobState.DONE ⟨[0], none, none⟩) = true →
      JobState.RUNNING = JobState.RUNNING) :=
  job_state_machine JobState.RUNNING (JobState.DONE ⟨[0], none, none⟩)
    (JobStep.finish ⟨[0], none, none⟩)

/-- Claim C7: two calls of the Objective Evaluator's `evaluate` on the same
parameter vector under the same fixed random/shot seed yield identical
results. -/
theorem evaluate_deterministic (θ : List ℚ) (seed shots : Nat)
    (r1 r2 : Payload) (h1 : r1 = evaluate θ seed shots)
    (h2 : r2 = evaluate θ seed shots) : r1 = r2 :=
  h1.trans h2.symm

/-- Witness for claim C7: two evaluations of the point `[1]` under seed 7
with 3 shots agree. -/
theorem evaluate_deterministic_witness :
    evaluate [1] 7 3 = evaluate [1] 7 3 :=
  evaluate_deterministic [1] 7 3 (evaluate [1] 7 3) (evaluate [1] 7 3)
    rfl rfl

/-- Claim C8: for the analytic objective `f(θ) = sin(θ)`, the
parameter-shift gradient at the default shift magnitude `π/2` equals the
closed-form derivative `cos(θ)` to within the tolerance `1e-6` (in fact
exactly). -/
theorem param_shift_matches_derivative (θ : ℝ) :
    |paramShiftGrad Real.sin defaultShift θ - Real.cos θ| ≤ 1 / 1000000 := by
  have h : paramShiftGrad Real.sin defaultShift θ = Real.cos θ := by
    unfold paramShiftGrad defaultShift
    rw [Real.sin_add_pi_div_two, Real.sin_sub_pi_div_two,
      Real.sin_pi_div_two]
    ring
  rw [h, sub_self, abs_zero]
  norm_num

/-- Claim C9: the export list is internally consistent — every string in
`__all__` is the name of a symbol bound by a module-level import, and
`__all__` has no duplicate entries. -/
theorem all_list_consistent :
    allList.all (fun n => importedNames.contains n) = true ∧
    allList.Nodup := by
  decide

/-- Claim C10: each of the ten names VQE, QAOA, VQD, Eigensolver,
NumPyEigensolver, MinimumEigensolver, NumPyMinimumEigensolver, TrotterQRTE,
eval_observables and QuantumInstance appears on the docstring's documented
surface yet is neither bound by a module-level import nor listed in
`__all__`. -/
theorem documented_names_not_exported :
    ["VQE", "QAOA", "VQD", "Eigensolver", "NumPyEigensolver",
      "MinimumEigensolver", "NumPyMinimumEigensolver", "TrotterQRTE",
      "eval_observables", "QuantumInstance"].all
      (fun n => docstringNames.contains n && !(importedNames.contains n) &&
        !(allList.contains n)) = true := by
  decide

end QiskitAlgorithms
